import Mathlib

/-!
Verification of the mlops_task batch job (src/mlops_task/run.py).

The pipeline is shallowly embedded. The close column is a list of rationals
(the numeric values are modelled exactly; a NaN produced by the numeric
library is modelled as `none`), the YAML config is a key/value list, and the
top-level driver `runMain` mirrors the try/except structure of `main`.
-/

namespace MlopsTask

/-- One YAML scalar value, as far as the job inspects values. -/
inductive ConfigVal where
  | int (z : ℤ)
  | str (s : String)
  | other
deriving DecidableEq

/-- A parsed YAML mapping: association list from keys to values. -/
abbrev Config := List (String × ConfigVal)

/-- Python membership test `key in config` on a dict. -/
def hasKey (cfg : Config) (k : String) : Bool :=
  (cfg.find? (fun p => p.1 == k)).isSome

/-- Python `config[key]` / `config.get(key)` on a dict. -/
def lookupKey (cfg : Config) (k : String) : Option ConfigVal :=
  (cfg.find? (fun p => p.1 == k)).map (fun p => p.2)

/-- The required keys, in the order of the validation loop (run.py line 53). -/
def requiredKeys : List String := ["seed", "window", "version"]

/-- The validation loop of run.py lines 53–55: raise on the first missing key. -/
def checkKeys : List String → Config → Except String Unit
  | [], _ => .ok ()
  | k :: ks, cfg =>
    if hasKey cfg k then checkKeys ks cfg
    else .error ("Missing required config field: " ++ k)

/-- Config validation as performed by run.py. -/
def validateKeys (cfg : Config) : Except String Unit :=
  checkKeys requiredKeys cfg

/-- Spec-side restatement of the validation result: the first missing key in
the fixed order seed, window, version (used to compare with `validateKeys`). -/
def firstMissingSpec (cfg : Config) : String :=
  if hasKey cfg ("seed") then
    (if hasKey cfg ("window") then ("version") else ("window"))
  else ("seed")

/-- The double-quote character (codepoint 34). -/
def quoteChar : Char := Char.ofNat 34

/-- Python `s.strip(chars)`: remove ALL leading and ALL trailing characters
satisfying the predicate; interior characters are untouched. -/
def pyStrip (p : Char → Bool) (s : List Char) : List Char :=
  ((s.dropWhile p).reverse.dropWhile p).reverse

/-- run.py line 68: `line.strip().strip(<quote>)`, whitespace strip followed by
quote strip, applied to each raw input line before column parsing. -/
def cleanLine (s : List Char) : List Char :=
  pyStrip (fun c => c == quoteChar) (pyStrip (fun c => c.isWhitespace) s)

/-- Claim-side repair step as worded in the spec: strip whitespace, then strip
exactly ONE leading and exactly ONE trailing double-quote if present (used to
compare with the code's `cleanLine`). -/
def cleanLineSpec (s : List Char) : List Char :=
  let t := pyStrip (fun c => c.isWhitespace) s
  let t1 := if t.head? = some quoteChar then t.tail else t
  if t1.getLast? = some quoteChar then t1.dropLast else t1

/-- pandas `close.rolling(window=w).mean()` at position i: the mean of the w
values ending at i once a full window of history exists, NaN (none) before. -/
def rollingMeanAt (close : List ℚ) (w i : ℕ) : Option ℚ :=
  if w ≤ i + 1 then some (((close.drop (i + 1 - w)).take w).sum / (w : ℚ)) else none

/-- run.py line 81: the rolling_mean column. -/
def rolling_mean (close : List ℚ) (w : ℕ) : List (Option ℚ) :=
  (List.range close.length).map (rollingMeanAt close w)

/-- run.py line 86: `(close > rolling_mean).astype(int)`; a comparison against
NaN is false, so a none rolling mean yields 0. -/
def signal (close : List ℚ) (w : ℕ) : List ℕ :=
  List.zipWith
    (fun c m =>
      match m with
      | none => 0
      | some q => if q < c then 1 else 0)
    close (rolling_mean close w)

/-- run.py line 91: `df[signal][window-1:]`, the post-warm-up slice. -/
def valid_signals (close : List ℚ) (w : ℕ) : List ℕ :=
  (signal close w).drop (w - 1)

/-- pandas `Series.mean()`: NaN (none) on an empty series, else the mean. -/
def seriesMean (xs : List ℕ) : Option ℚ :=
  if xs.length = 0 then none else some ((xs.sum : ℚ) / (xs.length : ℚ))

/-- Round half to even to an integer (the tie behaviour of Python round). -/
def roundHalfEven (q : ℚ) : ℤ :=
  if Int.fract q = 1 / 2 then (if 2 ∣ ⌊q⌋ then ⌊q⌋ else ⌊q⌋ + 1) else round q

/-- Python `round(x, 4)` from run.py line 99. -/
def round4 (q : ℚ) : ℚ :=
  ((roundHalfEven (q * 10000) : ℤ) : ℚ) / 10000

/-- run.py line 99: the reported metric value; none models a NaN value. -/
def value (close : List ℚ) (w : ℕ) : Option ℚ :=
  (seriesMean (valid_signals close w)).map round4

/-- The dataframe returned by `pd.read_csv`: column names and rows of cells. -/
structure Df where
  cols : List String
  rows : List (List ℚ)
deriving DecidableEq

/-- The close column of a dataframe. -/
def closeCol (df : Df) : List ℚ :=
  df.rows.map (fun r => r.getD (df.cols.findIdx (fun c => c == "close")) 0)

/-- The report dictionaries of run.py lines 95 and 114. `latencyMs` is wall
clock time, outside the model; it is pinned to 0 here. -/
inductive Report where
  | success (version : ConfigVal) (rowsProcessed : ℕ) (metric : String)
      (value : Option ℚ) (latencyMs : ℕ) (seed : ConfigVal)
  | error (version : ConfigVal) (errorMessage : String)
deriving DecidableEq

/-- The observable end of a run: exactly one report written then an exit code,
or a crash (uncaught exception) with no report written. -/
inductive Outcome where
  | written (r : Report) (exitCode : ℕ)
  | crashed (exitCode : ℕ)
deriving DecidableEq

/-- The `config` variable as the except handler sees it: the initial empty
dict, or whatever `yaml.safe_load` returned (possibly the None document). -/
inductive CfgSnap where
  | initial
  | loaded (d : Option Config)

/-- The body of the try block of `main` (run.py lines 44–107). External
collaborators are passed as data: `cfgFile` is the result of reading and
YAML-parsing the config path (`none` = file absent, `Except.error` = parse
failure, a None document is `Option.none` inside), `inputFile` likewise is
the result of reading, line-cleaning and CSV-parsing the input path. On
failure it returns the exception message together with the config snapshot
the handler will observe. -/
def tryBody (cfgPath inPath : String)
    (cfgFile : Option (Except String (Option Config)))
    (inputFile : Option (Except String Df)) :
    Except (CfgSnap × String) Report :=
  match cfgFile with
  | none => .error (.initial, "Config file not found: " ++ cfgPath)
  | some (.error e) => .error (.initial, e)
  | some (.ok ydoc) =>
    match ydoc with
    | none =>
      -- a None config: `key not in None` raises TypeError
      .error (.loaded none, "argument of type NoneType is not iterable")
    | some cfg =>
      match checkKeys requiredKeys cfg with
      | .error msg => .error (.loaded (some cfg), msg)
      | .ok _ =>
        -- np.random.seed accepts integers in [0, 2^32)
        match lookupKey cfg ("seed") with
        | some (ConfigVal.int z) =>
          if 0 ≤ z ∧ z < 2 ^ 32 then
            match inputFile with
            | none => .error (.loaded (some cfg), "Input file not found: " ++ inPath)
            | some (.error e) => .error (.loaded (some cfg), e)
            | some (.ok df) =>
              if df.rows.length = 0 then
                .error (.loaded (some cfg), "Input CSV is empty")
              else if df.cols.contains ("close") then
                match lookupKey cfg ("window") with
                | some (ConfigVal.int wz) =>
                  if 1 ≤ wz then
                    .ok (.success ((lookupKey cfg ("version")).getD ConfigVal.other)
                      df.rows.length ("signal_rate")
                      (value (closeCol df) wz.toNat) 0 (ConfigVal.int z))
                  else
                    .error (.loaded (some cfg), "window must be an integer 0 or greater")
                | _ => .error (.loaded (some cfg), "window must be an integer")
              else
                .error (.loaded (some cfg), "Missing required column: close")
          else
            .error (.loaded (some cfg), "Seed must be between 0 and 2**32 - 1")
        | _ => .error (.loaded (some cfg), "Cannot seed with a non-integer")

/-- The whole of `main` (run.py lines 28–120): run the try body; on success
write the success report and exit 0; on failure build the error report from
`config.get` — which itself raises AttributeError (a crash, nothing written)
when `config` is the None document — write it and exit 1. -/
def runMain (cfgPath inPath : String)
    (cfgFile : Option (Except String (Option Config)))
    (inputFile : Option (Except String Df)) : Outcome :=
  match tryBody cfgPath inPath cfgFile inputFile with
  | .ok r => .written r 0
  | .error (snap, msg) =>
    match snap with
    | .initial => .written (.error (ConfigVal.str ("unknown")) msg) 1
    | .loaded none => .crashed 1
    | .loaded (some cfg) =>
      .written (.error ((lookupKey cfg ("version")).getD (ConfigVal.str ("unknown"))) msg) 1

/-! ### Structural lemmas about the pipeline columns -/

theorem length_rolling_mean (close : List ℚ) (w : ℕ) :
    (rolling_mean close w).length = close.length := by
  simp [rolling_mean]

theorem length_signal (close : List ℚ) (w : ℕ) :
    (signal close w).length = close.length := by
  simp [signal, length_rolling_mean]

theorem rolling_mean_getD (close : List ℚ) (w i : ℕ) (hi : i < close.length) :
    (rolling_mean close w).getD i none = rollingMeanAt close w i := by
  rw [List.getD_eq_getElem _ _ (by simpa [length_rolling_mean] using hi)]
  simp [rolling_mean]

theorem signal_getD (close : List ℚ) (w i : ℕ) (hi : i < close.length) :
    (signal close w).getD i 0 =
      match rollingMeanAt close w i with
      | none => 0
      | some q => if q < close.getD i 0 then 1 else 0 := by
  rw [List.getD_eq_getElem _ _ (by simpa [length_signal] using hi),
    List.getD_eq_getElem _ _ hi]
  simp [signal, List.getElem_zipWith, rolling_mean]

theorem sum_drop_take (close : List ℚ) (a w : ℕ) (h : a + w ≤ close.length) :
    ((close.drop a).take w).sum = ∑ j ∈ Finset.Ico a (a + w), close.getD j 0 := by
  induction w with
  | zero => simp
  | succ n ih =>
    have hlt : a + n < close.length := by omega
    have hget : (close.drop a)[n]? = some (close.getD (a + n) 0) := by
      rw [List.getElem?_drop, List.getElem?_eq_getElem hlt,
        List.getD_eq_getElem _ _ hlt]
    rw [List.take_succ, List.sum_append, ih (by omega), Nat.add_succ,
      Finset.sum_Ico_succ_top (Nat.le_add_right a n), hget]
    simp

/-- C1: for every dataset and window w ≥ 1, position i carries an undefined
(NaN, modelled none) rolling mean and a 0 signal during the warm-up
(i < w-1), and from i = w-1 on the rolling mean is the arithmetic mean of the
close values at positions i-w+1 .. i, with signal 1 exactly when close[i]
exceeds it. -/
theorem C1_rolling_mean_signal (close : List ℚ) (w i : ℕ)
    (_hw : 1 ≤ w) (hi : i < close.length) :
    (i + 1 < w →
      (rolling_mean close w).getD i none = none ∧ (signal close w).getD i 0 = 0)
    ∧ (w ≤ i + 1 →
      (rolling_mean close w).getD i none
        = some ((∑ j ∈ Finset.Icc (i + 1 - w) i, close.getD j 0) / (w : ℚ))
      ∧ (signal close w).getD i 0
        = if (∑ j ∈ Finset.Icc (i + 1 - w) i, close.getD j 0) / (w : ℚ)
            < close.getD i 0 then 1 else 0) := by
  constructor
  · intro hlt
    have hrm : rollingMeanAt close w i = none := by
      simp only [rollingMeanAt, if_neg (by omega : ¬ w ≤ i + 1)]
    refine ⟨?_, ?_⟩
    · rw [rolling_mean_getD close w i hi, hrm]
    · rw [signal_getD close w i hi, hrm]
  · intro hle
    have hIcc : Finset.Ico (i + 1 - w) (i + 1 - w + w)
        = Finset.Icc (i + 1 - w) i := by
      ext x
      simp only [Finset.mem_Ico, Finset.mem_Icc]
      omega
    have hsum : ((close.drop (i + 1 - w)).take w).sum
        = ∑ j ∈ Finset.Icc (i + 1 - w) i, close.getD j 0 := by
      rw [sum_drop_take close _ w (by omega), hIcc]
    have hrm : rollingMeanAt close w i
        = some ((∑ j ∈ Finset.Icc (i + 1 - w) i, close.getD j 0) / (w : ℚ)) := by
      simp only [rollingMeanAt, if_pos hle, hsum]
    refine ⟨?_, ?_⟩
    · rw [rolling_mean_getD close w i hi, hrm]
    · rw [signal_getD close w i hi, hrm]

/-- Witness for C1 at close = [1, 2], w = 2, i = 1. -/
theorem C1_rolling_mean_signal_witness :
    (rolling_mean [(1 : ℚ), 2] 2).getD 1 none
      = some ((∑ j ∈ Finset.Icc (1 + 1 - 2) 1, [(1 : ℚ), 2].getD j 0) / ((2 : ℕ) : ℚ)) :=
  ((C1_rolling_mean_signal [(1 : ℚ), 2] 2 1 (by norm_num) (by norm_num)).2
    (by norm_num)).1

/-- C5: a parsed config mapping missing at least one required key fails with
the message naming exactly the first missing key in the fixed order seed,
window, version (`firstMissingSpec` spells out that order). -/
theorem C5_first_missing_key (cfg : Config)
    (h : ¬ (hasKey cfg ("seed") = true ∧ hasKey cfg ("window") = true
      ∧ hasKey cfg ("version") = true)) :
    validateKeys cfg
      = .error ("Missing required config field: " ++ firstMissingSpec cfg) := by
  by_cases h1 : hasKey cfg ("seed") = true <;>
    by_cases h2 : hasKey cfg ("window") = true <;>
      by_cases h3 : hasKey cfg ("version") = true <;>
        simp [validateKeys, requiredKeys, checkKeys, firstMissingSpec,
          h1, h2, h3] at h ⊢

/-- Witness for C5: a config holding only seed fails naming window, and the
message is exactly the claimed string. -/
theorem C5_first_missing_key_witness :
    validateKeys [("seed", ConfigVal.int 0)]
      = .error ("Missing required config field: "
          ++ firstMissingSpec [("seed", ConfigVal.int 0)])
    ∧ ("Missing required config field: "
          ++ firstMissingSpec [("seed", ConfigVal.int 0)])
        = "Missing required config field: window" :=
  ⟨C5_first_missing_key _ (by decide), by decide⟩

/-- C10: config validation only tests key presence; any mapping holding the
keys seed, window and version passes, whatever the values are (including a
zero, negative or non-integer window). -/
theorem C10_validation_keys_only (cfg : Config)
    (h : hasKey cfg ("seed") = true ∧ hasKey cfg ("window") = true
      ∧ hasKey cfg ("version") = true) :
    validateKeys cfg = .ok () := by
  obtain ⟨h1, h2, h3⟩ := h
  simp [validateKeys, requiredKeys, checkKeys, h1, h2, h3]

/-- Witness for C10: a config with a string seed, a negative window, and a
non-scalar version still validates. -/
theorem C10_validation_keys_only_witness :
    validateKeys [("seed", ConfigVal.str ("x")), ("window", ConfigVal.int (-3)),
      ("version", ConfigVal.other)] = .ok () :=
  C10_validation_keys_only _ (by decide)

/-- C8 (code bug evidence): an existing config file whose YAML document is
None (for instance an empty config file) makes the validation loop raise
TypeError, and the except handler itself then crashes on `config.get`
(AttributeError on None), so the process terminates WITHOUT writing any
report — contradicting the claim that every failure writes exactly one
Error report. -/
theorem C8_null_config_crash :
    runMain ("config.yaml") ("data.csv") (some (.ok none)) none = .crashed 1 := rfl

/-! ### Lemmas about dropWhile-based stripping (for C4) -/

theorem takeWhile_quote_replicate (l : List Char) :
    l.takeWhile (fun c => c == quoteChar)
      = List.replicate (l.takeWhile (fun c => c == quoteChar)).length quoteChar := by
  rw [List.eq_replicate_iff]
  exact ⟨rfl, fun b hb => by simpa using List.mem_takeWhile_imp hb⟩

theorem head?_dropWhile_neg (p : Char → Bool) (l : List Char) (x : Char)
    (hx : (l.dropWhile p).head? = some x) : p x = false := by
  induction l with
  | nil => simp at hx
  | cons a l ih =>
    by_cases h : p a
    · rw [List.dropWhile_cons_of_pos h] at hx
      exact ih hx
    · rw [List.dropWhile_cons_of_neg h] at hx
      simp only [List.head?_cons, Option.some_inj] at hx
      subst hx
      simpa using h

/-- C4 counterexample: on a line wrapped in two pairs of quotes the code
strips ALL of them, where the claim prescribes stripping exactly one pair. -/
theorem C4_counterexample :
    cleanLine [quoteChar, quoteChar, Char.ofNat 97, quoteChar, quoteChar]
      = [Char.ofNat 97]
    ∧ cleanLineSpec [quoteChar, quoteChar, Char.ofNat 97, quoteChar, quoteChar]
      = [quoteChar, Char.ofNat 97, quoteChar]
    ∧ cleanLine [quoteChar, quoteChar, Char.ofNat 97, quoteChar, quoteChar]
      ≠ cleanLineSpec [quoteChar, quoteChar, Char.ofNat 97, quoteChar, quoteChar] :=
  ⟨by decide, by decide, by decide⟩

/-- C4 (amended): the repair strips leading/trailing whitespace and then ALL
leading and ALL trailing double-quote characters (not exactly one of each):
the cleaned line is the whitespace-stripped line minus a run of quotes at
each end, it carries no leading or trailing quote, and interior characters
(including interior quotes) are untouched. -/
theorem C4_strip_all_quotes (s : List Char) :
    (∃ a b, pyStrip (fun c => c.isWhitespace) s
      = List.replicate a quoteChar ++ cleanLine s ++ List.replicate b quoteChar)
    ∧ (cleanLine s).head? ≠ some quoteChar
    ∧ (cleanLine s).getLast? ≠ some quoteChar := by
  set q : Char → Bool := fun c => c == quoteChar with hq
  set t : List Char := pyStrip (fun c => c.isWhitespace) s with ht
  set u : List Char := t.dropWhile q with hu
  set v : List Char := u.reverse.dropWhile q with hv
  have hclean : cleanLine s = v.reverse := rfl
  have h1 : t = t.takeWhile q ++ u := (List.takeWhile_append_dropWhile q t).symm
  have h2 : u.reverse = u.reverse.takeWhile q ++ v :=
    (List.takeWhile_append_dropWhile q u.reverse).symm
  have h2r : u = v.reverse ++ (u.reverse.takeWhile q).reverse := by
    have := congrArg List.reverse h2
    simpa using this
  refine ⟨⟨(t.takeWhile q).length, (u.reverse.takeWhile q).length, ?_⟩, ?_, ?_⟩
  · rw [hclean]
    calc t = t.takeWhile q ++ u := h1
    _ = t.takeWhile q ++ (v.reverse ++ (u.reverse.takeWhile q).reverse) := by
        rw [← h2r]
    _ = List.replicate (t.takeWhile q).length quoteChar
          ++ v.reverse ++ List.replicate (u.reverse.takeWhile q).length quoteChar := by
        rw [takeWhile_quote_replicate t]
        rw [takeWhile_quote_replicate u.reverse]
        simp [List.append_assoc]
  · rw [hclean]
    intro hcontra
    rw [List.head?_reverse] at hcontra
    have hvne : v ≠ [] := by
      intro hnil
      rw [hnil] at hcontra
      simp at hcontra
    have hlast : u.reverse.getLast? = some quoteChar := by
      rw [h2, List.getLast?_append]
      rw [hcontra]
      rfl
    rw [List.getLast?_reverse] at hlast
    have := head?_dropWhile_neg q t quoteChar (by rw [← hu]; exact hlast)
    simp [hq] at this
  · rw [hclean]
    intro hcontra
    rw [List.getLast?_reverse] at hcontra
    have := head?_dropWhile_neg q u.reverse quoteChar hcontra
    simp [hq] at this

/-! ### The empty post-warm-up slice (C2) -/

theorem value_eq_none (close : List ℚ) (w : ℕ) (h : close.length < w) :
    value close w = none := by
  have hnil : valid_signals close w = [] := by
    rw [valid_signals, List.drop_eq_nil_iff, length_signal]
    omega
  simp [value, hnil, seriesMean]

/-- C2 counterexample: a well-formed run whose window (2) exceeds the row
count (1) does NOT fail — it writes a success report with exit code 0 whose
value is the NaN sentinel, where the claim demands an Error report and a
non-zero exit. -/
theorem C2_counterexample :
    runMain ("config.yaml") ("data.csv")
      (some (.ok (some [("seed", ConfigVal.int 0), ("window", ConfigVal.int 2),
        ("version", ConfigVal.str ("v1"))])))
      (some (.ok (Df.mk [("close")] [[1]])))
    = .written (.success (ConfigVal.str ("v1")) 1 ("signal_rate") none 0
        (ConfigVal.int 0)) 0 := rfl

/-- C2 (amended): when the window exceeds the (non-zero) number of data rows,
the run still succeeds: the post-warm-up slice is empty, pandas mean of the
empty slice is NaN, and a success report with a NaN (none) value and exit
code 0 is written — no ArithmeticError is raised. -/
theorem C2_empty_slice_success (z wz : ℤ) (ver : String) (df : Df)
    (hz : 0 ≤ z ∧ z < 2 ^ 32) (hw : 1 ≤ wz)
    (hrows : ¬ df.rows.length = 0) (hclose : df.cols.contains ("close") = true)
    (hlen : df.rows.length < wz.toNat) :
    runMain ("config.yaml") ("data.csv")
      (some (.ok (some [("seed", ConfigVal.int z), ("window", ConfigVal.int wz),
        ("version", ConfigVal.str ver)])))
      (some (.ok df))
    = .written (.success (ConfigVal.str ver) df.rows.length ("signal_rate")
        none 0 (ConfigVal.int z)) 0 := by
  have hcl : (closeCol df).length = df.rows.length := by simp [closeCol]
  have hval : value (closeCol df) wz.toNat = none := by
    apply value_eq_none
    rw [hcl]
    exact hlen
  have hck : checkKeys requiredKeys [("seed", ConfigVal.int z),
      ("window", ConfigVal.int wz), ("version", ConfigVal.str ver)] = .ok () := rfl
  have hlseed : lookupKey [("seed", ConfigVal.int z), ("window", ConfigVal.int wz),
      ("version", ConfigVal.str ver)] ("seed") = some (ConfigVal.int z) := rfl
  have hlwin : lookupKey [("seed", ConfigVal.int z), ("window", ConfigVal.int wz),
      ("version", ConfigVal.str ver)] ("window") = some (ConfigVal.int wz) := rfl
  have hlver : lookupKey [("seed", ConfigVal.int z), ("window", ConfigVal.int wz),
      ("version", ConfigVal.str ver)] ("version") = some (ConfigVal.str ver) := rfl
  simp only [runMain, tryBody, hck, hlseed, hlwin, hlver]
  rw [if_pos hz, if_neg hrows, if_pos hclose, if_pos hw, hval]
  rfl

/-- Witness for C2 (amended) at a 2-row dataset with window 3. -/
theorem C2_empty_slice_success_witness :
    runMain ("config.yaml") ("data.csv")
      (some (.ok (some [("seed", ConfigVal.int 7), ("window", ConfigVal.int 3),
        ("version", ConfigVal.str ("v2"))])))
      (some (.ok (Df.mk [("close")] [[1], [2]])))
    = .written (.success (ConfigVal.str ("v2"))
        (Df.mk [("close")] [[(1 : ℚ)], [2]]).rows.length ("signal_rate")
        none 0 (ConfigVal.int 7)) 0 :=
  C2_empty_slice_success 7 3 ("v2") (Df.mk [("close")] [[1], [2]])
    (by norm_num) (by norm_num) (by decide) (by decide) (by decide)

/-! ### Dependence of the aggregate on warm-up data (C3) -/

/-- C3 counterexample: two datasets that agree everywhere except the warm-up
row 0 (window 2, so row 0 is warm-up) produce different reported values —
warm-up close values do influence the aggregate, through the rolling means
of later positions. -/
theorem C3_counterexample :
    [(1 : ℚ), 2].length = [(3 : ℚ), 2].length
    ∧ [(1 : ℚ), 2].drop (2 - 1) = [(3 : ℚ), 2].drop (2 - 1)
    ∧ value [(1 : ℚ), 2] 2 ≠ value [(3 : ℚ), 2] 2 := by
  refine ⟨by simp, by simp, ?_⟩
  have e1 : rolling_mean [(1 : ℚ), 2] 2 = [none, some (3 / 2)] := by
    simp [rolling_mean, rollingMeanAt, List.range_succ]
    norm_num
  have e2 : rolling_mean [(3 : ℚ), 2] 2 = [none, some (5 / 2)] := by
    simp [rolling_mean, rollingMeanAt, List.range_succ]
    norm_num
  have s1 : signal [(1 : ℚ), 2] 2 = [0, 1] := by
    simp [signal, e1]
    norm_num
  have s2 : signal [(3 : ℚ), 2] 2 = [0, 0] := by
    simp [signal, e2]
    try norm_num
  have v1 : value [(1 : ℚ), 2] 2 = some 1 := by
    simp [value, valid_signals, s1, seriesMean, round4, roundHalfEven, Int.fract,
      round_eq]
    try norm_num
  have v2 : value [(3 : ℚ), 2] 2 = some 0 := by
    simp [value, valid_signals, s2, seriesMean, round4, roundHalfEven, Int.fract,
      round_eq]
    try norm_num
  rw [v1, v2]
  simp

/-- C3 (amended): the first w-1 signal values never contribute to the
aggregate — the reported value depends on the dataset only through the
signal values at positions w-1 onward (but, per the counterexample, warm-up
CLOSE values can still change those signals through later rolling means). -/
theorem C3_value_signal_dependence (c1 c2 : List ℚ) (w : ℕ)
    (hlen : c1.length = c2.length)
    (hsig : ∀ i, w - 1 ≤ i → (signal c1 w).getD i 0 = (signal c2 w).getD i 0) :
    value c1 w = value c2 w := by
  have hdrop : valid_signals c1 w = valid_signals c2 w := by
    apply List.ext_getElem
    · simp [valid_signals, length_signal, hlen]
    · intro i h1 h2
      simp only [valid_signals] at h1 h2 ⊢
      rw [List.getElem_drop, List.getElem_drop]
      have b1 : w - 1 + i < (signal c1 w).length := by
        rw [length_signal]
        rw [List.length_drop, length_signal] at h1
        omega
      have b2 : w - 1 + i < (signal c2 w).length := by
        rw [length_signal]
        rw [List.length_drop, length_signal] at h2
        omega
      rw [← List.getD_eq_getElem _ 0 b1, ← List.getD_eq_getElem _ 0 b2]
      exact hsig (w - 1 + i) (Nat.le_add_right _ _)
  simp only [value, hdrop]

/-- Witness for C3 (amended): two datasets whose signal columns agree from
position w-1 = 1 on (indeed everywhere) get the same value. -/
theorem C3_value_signal_dependence_witness :
    value [(1 : ℚ), 2] 2 = value [(0 : ℚ), 2] 2 := by
  have hs : signal [(1 : ℚ), 2] 2 = signal [(0 : ℚ), 2] 2 := by
    have e1 : rolling_mean [(1 : ℚ), 2] 2 = [none, some (3 / 2)] := by
      simp [rolling_mean, rollingMeanAt, List.range_succ]
      norm_num
    have e2 : rolling_mean [(0 : ℚ), 2] 2 = [none, some 1] := by
      simp [rolling_mean, rollingMeanAt, List.range_succ]
      try norm_num
    have s1 : signal [(1 : ℚ), 2] 2 = [0, 1] := by
      simp [signal, e1]
      try norm_num
    have s2 : signal [(0 : ℚ), 2] 2 = [0, 1] := by
      simp [signal, e2]
      try norm_num
    rw [s1, s2]
  exact C3_value_signal_dependence [(1 : ℚ), 2] [(0 : ℚ), 2] 2 (by simp)
    (fun i _ => by rw [hs])

/-! ### The worked example (C6) -/

/-- C6 counterexample: for close = [1,2,3,4,5] and window 3, the signal at
index 2 is 1 (close 3 exceeds the rolling mean 2), so the post-warm-up
signals are [1,1,1] — not [0,1,1] as the claim reads them. -/
theorem C6_counterexample :
    (signal [(1 : ℚ), 2, 3, 4, 5] 3).drop 2 ≠ [0, 1, 1] := by
  have h : rolling_mean [(1 : ℚ), 2, 3, 4, 5] 3
      = [none, none, some 2, some 3, some 4] := by
    simp [rolling_mean, rollingMeanAt, List.range_succ]
    try norm_num
  have h2 : signal [(1 : ℚ), 2, 3, 4, 5] 3 = [0, 0, 1, 1, 1] := by
    simp [signal, h]
    try norm_num
  rw [h2]
  decide

/-- C6 (amended): for close = [1,2,3,4,5] and window 3, the rolling means at
indices 2,3,4 are [2,3,4], the signals there are [1,1,1], their mean is 1,
and the reported value is 1 (the 4-decimal rounding is exact here, so the
value does equal the mean of the signals over indices 2..4). -/
theorem C6_example_run :
    (rolling_mean [(1 : ℚ), 2, 3, 4, 5] 3).drop 2 = [some 2, some 3, some 4]
    ∧ (signal [(1 : ℚ), 2, 3, 4, 5] 3).drop 2 = [1, 1, 1]
    ∧ seriesMean ((signal [(1 : ℚ), 2, 3, 4, 5] 3).drop 2) = some 1
    ∧ value [(1 : ℚ), 2, 3, 4, 5] 3 = some 1 := by
  have h : rolling_mean [(1 : ℚ), 2, 3, 4, 5] 3
      = [none, none, some 2, some 3, some 4] := by
    simp [rolling_mean, rollingMeanAt, List.range_succ]
    try norm_num
  have h2 : signal [(1 : ℚ), 2, 3, 4, 5] 3 = [0, 0, 1, 1, 1] := by
    simp [signal, h]
    try norm_num
  refine ⟨by rw [h]; rfl, by rw [h2]; rfl, ?_, ?_⟩
  · rw [h2]
    simp [seriesMean]
    try norm_num
  · simp [value, valid_signals, h2, seriesMean, round4, roundHalfEven, Int.fract,
      round_eq]
    try norm_num

/-! ### Bounds on the aggregate (C7) -/

theorem signal_le_one (close : List ℚ) (w : ℕ) :
    ∀ x ∈ signal close w, x ≤ 1 := by
  rw [signal]
  generalize rolling_mean close w = rm
  induction close generalizing rm with
  | nil =>
    intro x hx
    simp at hx
  | cons c cs ih =>
    cases rm with
    | nil =>
      intro x hx
      simp at hx
    | cons m ms =>
      intro x hx
      rw [List.zipWith_cons_cons] at hx
      rcases List.mem_cons.mp hx with hh | hh
      · subst hh
        cases m with
        | none => exact Nat.zero_le 1
        | some q =>
          dsimp only
          split <;> omega
      · exact ih ms x hh

theorem roundHalfEven_bounds (x : ℚ) :
    ⌊x⌋ ≤ roundHalfEven x ∧ roundHalfEven x ≤ ⌈x⌉ := by
  unfold roundHalfEven
  split
  · next h =>
    have h' : x - (⌊x⌋ : ℚ) = 1 / 2 := h
    have hlt : (⌊x⌋ : ℚ) < x := by linarith
    have hfc : ⌊x⌋ < ⌈x⌉ := Int.lt_ceil.mpr hlt
    split <;> constructor <;> omega
  · next h =>
    rw [round_eq]
    constructor
    · exact Int.floor_le_floor (by linarith : x ≤ x + 1 / 2)
    · have h1 : x + 1 / 2 < ((⌈x⌉ + 1 : ℤ) : ℚ) := by
        push_cast
        have := Int.le_ceil x
        linarith
      have h2 := Int.floor_lt.mpr h1
      omega

theorem round4_bounds (q : ℚ) (h0 : 0 ≤ q) (h1 : q ≤ 1) :
    0 ≤ round4 q ∧ round4 q ≤ 1 := by
  obtain ⟨hl, hu⟩ := roundHalfEven_bounds (q * 10000)
  have hx0 : (0 : ℚ) ≤ q * 10000 := by linarith
  have hx1 : q * 10000 ≤ 10000 := by linarith
  have hf : (0 : ℤ) ≤ ⌊q * 10000⌋ := Int.floor_nonneg.mpr hx0
  have hc : ⌈q * 10000⌉ ≤ (10000 : ℤ) := Int.ceil_le.mpr (by push_cast; exact hx1)
  have hr0 : (0 : ℤ) ≤ roundHalfEven (q * 10000) := le_trans hf hl
  have hr1 : roundHalfEven (q * 10000) ≤ 10000 := le_trans hu hc
  unfold round4
  constructor
  · apply div_nonneg _ (by norm_num)
    exact_mod_cast hr0
  · rw [div_le_one (by norm_num)]
    exact_mod_cast hr1

/-- C7: whenever the post-warm-up slice is non-empty, the reported value is a
defined number in the closed interval [0, 1]. -/
theorem C7_value_in_unit_interval (close : List ℚ) (w : ℕ)
    (h : valid_signals close w ≠ []) :
    ∃ q, value close w = some q ∧ 0 ≤ q ∧ q ≤ 1 := by
  set vs := valid_signals close w with hvs
  have hlen : vs.length ≠ 0 := by simpa [List.length_eq_zero] using h
  have hpos : 0 < vs.length := Nat.pos_of_ne_zero hlen
  have hmean : seriesMean vs = some ((vs.sum : ℚ) / (vs.length : ℚ)) := by
    rw [seriesMean, if_neg hlen]
  have hsum : vs.sum ≤ vs.length := by
    have hb : ∀ x ∈ vs, x ≤ 1 := fun x hx =>
      signal_le_one close w x (List.mem_of_mem_drop hx)
    calc vs.sum ≤ vs.length • 1 := List.sum_le_card_nsmul vs 1 hb
    _ = vs.length := by simp
  have hq0 : (0 : ℚ) ≤ (vs.sum : ℚ) / (vs.length : ℚ) := by positivity
  have hq1 : (vs.sum : ℚ) / (vs.length : ℚ) ≤ 1 := by
    rw [div_le_one (by exact_mod_cast hpos)]
    exact_mod_cast hsum
  obtain ⟨hr0, hr1⟩ := round4_bounds _ hq0 hq1
  refine ⟨round4 ((vs.sum : ℚ) / (vs.length : ℚ)), ?_, hr0, hr1⟩
  simp only [value, ← hvs, hmean, Option.map_some']

/-- Witness for C7 at close = [1, 2], window 1. -/
theorem C7_value_in_unit_interval_witness :
    ∃ q, value [(1 : ℚ), 2] 1 = some q ∧ 0 ≤ q ∧ q ≤ 1 :=
  C7_value_in_unit_interval [(1 : ℚ), 2] 1 (by
    apply List.length_pos.mp
    have hlen2 : (valid_signals [(1 : ℚ), 2] 1).length = 2 := by
      simp [valid_signals, length_signal]
    omega)

/-! ### The degenerate window w = 1 (C9) -/

/-- C9: with window 1 there is no warm-up: every rolling mean equals the
close value at that position, every signal is 0 (a value never strictly
exceeds itself), and the reported value is 0. -/
theorem C9_window_one (close : List ℚ) (h : close ≠ []) :
    rolling_mean close 1 = close.map (fun c => some c)
    ∧ signal close 1 = List.replicate close.length 0
    ∧ value close 1 = some 0 := by
  have hrm : rolling_mean close 1 = close.map (fun c => some c) := by
    apply List.ext_getElem
    · simp [length_rolling_mean]
    · intro i h1 h2
      have hi : i < close.length := by simpa [length_rolling_mean] using h1
      simp only [rolling_mean, List.getElem_map, List.getElem_range]
      simp only [rollingMeanAt, if_pos (by omega : 1 ≤ i + 1)]
      have ht : List.take 1 (List.drop (i + 1 - 1) close) = [close[i]] := by
        rw [show i + 1 - 1 = i from rfl, List.drop_eq_getElem_cons hi]
        rfl
      rw [ht]
      simp
  have hsig : signal close 1 = List.replicate close.length 0 := by
    apply List.ext_getElem
    · simp [length_signal]
    · intro i h1 h2
      have hi : i < close.length := by simpa [length_signal] using h1
      simp only [signal, hrm, List.getElem_zipWith, List.getElem_map,
        List.getElem_replicate]
      simp
  have hlen0 : close.length ≠ 0 := by simpa [List.length_eq_zero] using h
  refine ⟨hrm, hsig, ?_⟩
  have hvs : valid_signals close 1 = List.replicate close.length 0 := by
    simp [valid_signals, hsig]
  simp [value, hvs, seriesMean, hlen0, List.sum_replicate, round4, roundHalfEven,
    Int.fract, round_eq]
  try norm_num

/-- Witness for C9 at close = [5]. -/
theorem C9_window_one_witness :
    rolling_mean [(5 : ℚ)] 1 = [(5 : ℚ)].map (fun c => some c)
    ∧ signal [(5 : ℚ)] 1 = List.replicate [(5 : ℚ)].length 0
    ∧ value [(5 : ℚ)] 1 = some 0 :=
  C9_window_one [(5 : ℚ)] (by simp)

end MlopsTask
